import Mathlib

/-!
Shallow embedding of the lock-picker combination game (`src/main.js`,
classes `SeededRandom` and `LockPickerGame`).

JavaScript's `%` on integers is remainder with the sign of the dividend,
which is `Int.tmod`.  JavaScript numeric division and `Math.floor` are
modelled by exact rational arithmetic (`ℚ`) and `Int.floor`.
-/

namespace LockPicker

/-- Embeds `class SeededRandom` from `src/main.js`: a single mutable integer
seed, threaded explicitly. -/
structure SeededRandom where
  seed : Int
deriving DecidableEq

/-- `next()`: updates `this.seed = (this.seed * 9301 + 49297) % 233280` and
returns `this.seed / 233280`.  Returns the drawn value and the updated
generator. -/
def SeededRandom.next (r : SeededRandom) : ℚ × SeededRandom :=
  let s : Int := (r.seed * 9301 + 49297).tmod 233280
  ((s : ℚ) / 233280, ⟨s⟩)

/-- `nextInt(max)`: `Math.floor(this.next() * max)`. -/
def SeededRandom.nextInt (r : SeededRandom) (max : Int) : Int × SeededRandom :=
  let p := r.next
  (⌊p.1 * (max : ℚ)⌋, p.2)

/-- The game state of `class LockPickerGame`: `slots` (the three dial
digits), `currentSlot` (the active slot), `targetCode`, `correctSlots`,
`unlocked`, plus the game's `SeededRandom` instance.  The charset is
`'0123456789'`, so `charset.length = 10`. -/
structure LockPickerGame where
  slots : Fin 3 → Int
  currentSlot : Fin 3
  targetCode : Fin 3 → Int
  correctSlots : Fin 3 → Bool
  unlocked : Bool
  random : SeededRandom
deriving DecidableEq

/-- `generateTargetCode()`: three sequential `nextInt(10)` draws, in slot
order 0, 1, 2. -/
def generateTargetCode (r : SeededRandom) : (Fin 3 → Int) × SeededRandom :=
  let p0 := r.nextInt 10
  let p1 := p0.2.nextInt 10
  let p2 := p1.2.nextInt 10
  (![p0.1, p1.1, p2.1], p2.2)

/-- Construction plus `init()`: `slots = [0,0,0]`, `currentSlot = 0`,
`correctSlots` all false, `unlocked = false`, `random = new
SeededRandom(seed)`, then `generateTargetCode()`. -/
def LockPickerGame.init (seed : Int) : LockPickerGame :=
  let p := generateTargetCode ⟨seed⟩
  { slots := ![0, 0, 0]
    currentSlot := 0
    targetCode := p.1
    correctSlots := ![false, false, false]
    unlocked := false
    random := p.2 }

/-- `selectSlot(slotIndex)`: no-op when unlocked or the index is outside
`[0, 3)`; otherwise sets `currentSlot`. -/
def LockPickerGame.selectSlot (g : LockPickerGame) (slotIndex : Int) : LockPickerGame :=
  if h : g.unlocked = true ∨ slotIndex < 0 ∨ 3 ≤ slotIndex then g
  else
    { g with currentSlot := ⟨slotIndex.toNat, by
        rcases not_or.mp h with ⟨-, h2⟩
        rcases not_or.mp h2 with ⟨h3, h4⟩
        omega⟩ }

/-- `changeDigit(direction)`: no-op when unlocked; otherwise
`slots[currentSlot] = (slots[currentSlot] + direction + 10) % 10` and the
slot's correct flag is cleared. -/
def LockPickerGame.changeDigit (g : LockPickerGame) (direction : Int) : LockPickerGame :=
  if g.unlocked then g
  else
    { g with
      slots := Function.update g.slots g.currentSlot
        ((g.slots g.currentSlot + direction + 10).tmod 10)
      correctSlots := Function.update g.correctSlots g.currentSlot false }

/-- `unlock()`: sets `unlocked = true` (the rest is presentation). -/
def LockPickerGame.unlock (g : LockPickerGame) : LockPickerGame :=
  { g with unlocked := true }

/-- `confirmSlot()`: no-op when unlocked; otherwise sets
`correctSlots[currentSlot]` to whether the active digit matches the
target, advances `currentSlot` when correct and `currentSlot < 2`, and
calls `unlock()` when every correct flag is set. -/
def LockPickerGame.confirmSlot (g : LockPickerGame) : LockPickerGame :=
  if g.unlocked then g
  else
    let isCorrect : Bool := g.slots g.currentSlot = g.targetCode g.currentSlot
    let correctSlots' := Function.update g.correctSlots g.currentSlot isCorrect
    let currentSlot' : Fin 3 :=
      if h : isCorrect = true ∧ g.currentSlot.val < 2 then
        ⟨g.currentSlot.val + 1, by omega⟩
      else g.currentSlot
    let g' := { g with correctSlots := correctSlots', currentSlot := currentSlot' }
    if ∀ i, correctSlots' i = true then g'.unlock else g'

/-- `checkCombination()`: no-op when unlocked; `unlock()` when every digit
matches the target; otherwise only the shake animation runs (no state
mutation). -/
def LockPickerGame.checkCombination (g : LockPickerGame) : LockPickerGame :=
  if g.unlocked then g
  else if ∀ i, g.slots i = g.targetCode i then g.unlock
  else g

/-- `reset()`: resets `slots`, `currentSlot`, `correctSlots` and
`unlocked`, then calls `generateTargetCode()` on the game's existing
generator (no reseeding). -/
def LockPickerGame.reset (g : LockPickerGame) : LockPickerGame :=
  let p := generateTargetCode g.random
  { slots := ![0, 0, 0]
    currentSlot := 0
    targetCode := p.1
    correctSlots := ![false, false, false]
    unlocked := false
    random := p.2 }

/-- The direction argument fed to `changeDigit` by every input adapter:
the TypeScript variant types it as `1 | -1`. -/
inductive Direction
  | up
  | down
deriving DecidableEq

def Direction.toInt : Direction → Int
  | .up => 1
  | .down => -1

/-- The abstract input events the adapters can feed into the game. -/
inductive Op
  | selectSlot (i : Int)
  | changeDigit (d : Direction)
  | confirmSlot
  | checkCombination
  | reset
deriving DecidableEq

def LockPickerGame.applyOp (g : LockPickerGame) : Op → LockPickerGame
  | .selectSlot i => g.selectSlot i
  | .changeDigit d => g.changeDigit d.toInt
  | .confirmSlot => g.confirmSlot
  | .checkCombination => g.checkCombination
  | .reset => g.reset

/-- Runs a sequence of input events, one at a time, in order. -/
def LockPickerGame.run (g : LockPickerGame) (ops : List Op) : LockPickerGame :=
  ops.foldl LockPickerGame.applyOp g

/-- The range invariant: the generator seed is nonnegative, and every dial
digit and every target digit lies in `[0, 10)`. -/
def InRange (g : LockPickerGame) : Prop :=
  0 ≤ g.random.seed ∧
    (∀ i, 0 ≤ g.slots i ∧ g.slots i < 10) ∧
    (∀ i, 0 ≤ g.targetCode i ∧ g.targetCode i < 10)

/-- The coupling invariant of C2: `unlocked` holds exactly when all three
correct flags hold. -/
def UnlockedCoupled (g : LockPickerGame) : Prop :=
  g.unlocked = true ↔ ∀ i, g.correctSlots i = true

/-- A concrete locked state with dial `[4,0,0]`, used as a witness input. -/
def sampleDial : LockPickerGame :=
  { slots := ![4, 0, 0]
    currentSlot := 0
    targetCode := ![2, 5, 3]
    correctSlots := ![false, false, false]
    unlocked := false
    random := ⟨0⟩ }

/-- A concrete locked state with dial `[0,0,0]`, used as a witness input. -/
def sampleZero : LockPickerGame :=
  { slots := ![0, 0, 0]
    currentSlot := 0
    targetCode := ![2, 5, 3]
    correctSlots := ![false, false, false]
    unlocked := false
    random := ⟨0⟩ }

/-! ### Executable characterization of the generator

`next()` produces `s' / 233280` with `s' = (seed * 9301 + 49297) % 233280`
(JS remainder = `Int.tmod`), and `Math.floor((s'/233280) * max)` equals the
integer floor-division `(s' * max) / 233280` (Euclidean `/` agrees with
floor division because the divisor is positive).  This turns the rational
definition into pure integer arithmetic that the kernel can evaluate. -/

theorem SeededRandom.nextInt_eq (r : SeededRandom) (max : Int) :
    r.nextInt max =
      ((((r.seed * 9301 + 49297).tmod 233280) * max) / 233280,
        ⟨(r.seed * 9301 + 49297).tmod 233280⟩) := by
  unfold SeededRandom.nextInt SeededRandom.next
  simp only
  congr 1
  rw [div_mul_eq_mul_div, ← Int.cast_mul]
  exact_mod_cast Rat.floor_intCast_div_natCast
    (((r.seed * 9301 + 49297).tmod 233280) * max) 233280

/-- Bounds on the updated seed when the old seed is nonnegative. -/
theorem SeededRandom.newSeed_bounds (r : SeededRandom) (h : 0 ≤ r.seed) :
    0 ≤ (r.seed * 9301 + 49297).tmod 233280 ∧
      (r.seed * 9301 + 49297).tmod 233280 < 233280 := by
  have ha : 0 ≤ r.seed * 9301 + 49297 := by omega
  have hb : (0 : Int) ≤ 233280 := by norm_num
  rw [Int.tmod_eq_emod ha hb]
  exact ⟨Int.emod_nonneg _ (by norm_num), Int.emod_lt_of_pos _ (by norm_num)⟩

/-- From a nonnegative seed, `nextInt max` draws in `[0, max)` (for
`max ≥ 1`) and the updated seed is again nonnegative. -/
theorem SeededRandom.nextInt_bounds (r : SeededRandom) (h : 0 ≤ r.seed)
    (max : Int) (hmax : 1 ≤ max) :
    0 ≤ (r.nextInt max).1 ∧ (r.nextInt max).1 < max ∧
      0 ≤ (r.nextInt max).2.seed := by
  obtain ⟨hs0, hs1⟩ := r.newSeed_bounds h
  rw [SeededRandom.nextInt_eq]
  refine ⟨Int.ediv_nonneg (by nlinarith) (by norm_num), ?_, hs0⟩
  rw [Int.ediv_lt_iff_lt_mul (by norm_num)]
  nlinarith

/-- Concrete evaluation: construction with seed 1 yields target code
`[2, 5, 3]` and leaves the generator at seed 79852. -/
theorem LockPickerGame.init_one :
    LockPickerGame.init 1 =
      { slots := ![0, 0, 0]
        currentSlot := 0
        targetCode := ![2, 5, 3]
        correctSlots := ![false, false, false]
        unlocked := false
        random := ⟨79852⟩ } := by
  unfold LockPickerGame.init generateTargetCode
  simp only [SeededRandom.nextInt_eq]
  decide

/-- Concrete evaluation: construction with seed -6 yields the
out-of-range target code `[-1, -4, -3]` (the JS remainder is negative on a
negative dividend). -/
theorem LockPickerGame.init_neg_six :
    LockPickerGame.init (-6) =
      { slots := ![0, 0, 0]
        currentSlot := 0
        targetCode := ![-1, -4, -3]
        correctSlots := ![false, false, false]
        unlocked := false
        random := ⟨-52815⟩ } := by
  unfold LockPickerGame.init generateTargetCode
  simp only [SeededRandom.nextInt_eq]
  decide

/-! ### Characterization of each operation -/

theorem LockPickerGame.selectSlot_of_unlocked (g : LockPickerGame)
    (h : g.unlocked = true) (i : Int) : g.selectSlot i = g := by
  unfold LockPickerGame.selectSlot
  rw [dif_pos (Or.inl h)]

theorem LockPickerGame.selectSlot_of_out (g : LockPickerGame) (i : Int)
    (h : i < 0 ∨ 3 ≤ i) : g.selectSlot i = g := by
  unfold LockPickerGame.selectSlot
  rw [dif_pos (Or.inr h)]

theorem LockPickerGame.selectSlot_of_locked (g : LockPickerGame)
    (h : g.unlocked = false) (i : Int) (h0 : 0 ≤ i) (h3 : i < 3) :
    g.selectSlot i = { g with currentSlot := ⟨i.toNat, by omega⟩ } := by
  unfold LockPickerGame.selectSlot
  rw [dif_neg (by simp [h]; omega)]

theorem LockPickerGame.changeDigit_of_unlocked (g : LockPickerGame)
    (h : g.unlocked = true) (d : Int) : g.changeDigit d = g := by
  simp [LockPickerGame.changeDigit, h]

theorem LockPickerGame.changeDigit_of_locked (g : LockPickerGame)
    (h : g.unlocked = false) (d : Int) :
    g.changeDigit d =
      { g with
        slots := Function.update g.slots g.currentSlot
          ((g.slots g.currentSlot + d + 10).tmod 10)
        correctSlots := Function.update g.correctSlots g.currentSlot false } := by
  simp [LockPickerGame.changeDigit, h]

theorem LockPickerGame.confirmSlot_of_unlocked (g : LockPickerGame)
    (h : g.unlocked = true) : g.confirmSlot = g := by
  simp [LockPickerGame.confirmSlot, h]

theorem LockPickerGame.checkCombination_of_unlocked (g : LockPickerGame)
    (h : g.unlocked = true) : g.checkCombination = g := by
  simp [LockPickerGame.checkCombination, h]

theorem LockPickerGame.confirmSlot_slots (g : LockPickerGame) :
    (g.confirmSlot).slots = g.slots := by
  unfold LockPickerGame.confirmSlot
  split
  · rfl
  · dsimp only
    split <;> rfl

theorem LockPickerGame.confirmSlot_targetCode (g : LockPickerGame) :
    (g.confirmSlot).targetCode = g.targetCode := by
  unfold LockPickerGame.confirmSlot
  split
  · rfl
  · dsimp only
    split <;> rfl

theorem LockPickerGame.confirmSlot_random (g : LockPickerGame) :
    (g.confirmSlot).random = g.random := by
  unfold LockPickerGame.confirmSlot
  split
  · rfl
  · dsimp only
    split <;> rfl

theorem LockPickerGame.confirmSlot_correctSlots (g : LockPickerGame)
    (h : g.unlocked = false) :
    (g.confirmSlot).correctSlots =
      Function.update g.correctSlots g.currentSlot
        (decide (g.slots g.currentSlot = g.targetCode g.currentSlot)) := by
  unfold LockPickerGame.confirmSlot
  rw [if_neg (by simp [h])]
  dsimp only
  split <;> rfl

theorem LockPickerGame.confirmSlot_currentSlot (g : LockPickerGame)
    (h : g.unlocked = false) :
    ((g.confirmSlot).currentSlot : Nat) =
      if g.slots g.currentSlot = g.targetCode g.currentSlot then
        min ((g.currentSlot : Nat) + 1) 2
      else (g.currentSlot : Nat) := by
  unfold LockPickerGame.confirmSlot LockPickerGame.unlock
  rw [if_neg (by simp [h])]
  dsimp only
  have hlt : (g.currentSlot : Nat) < 3 := g.currentSlot.isLt
  by_cases hc : g.slots g.currentSlot = g.targetCode g.currentSlot
  · rw [if_pos hc]
    by_cases h2 : (g.currentSlot : Nat) < 2
    · rw [dif_pos ⟨decide_eq_true hc, h2⟩]
      split <;> dsimp only <;> omega
    · rw [dif_neg fun hx => h2 hx.2]
      split <;> dsimp only <;> omega
  · rw [if_neg hc, dif_neg fun hx => hc (of_decide_eq_true hx.1)]
    split <;> dsimp only

theorem LockPickerGame.confirmSlot_unlocked_iff (g : LockPickerGame)
    (h : g.unlocked = false) :
    (g.confirmSlot).unlocked = true ↔
      ∀ i, Function.update g.correctSlots g.currentSlot
        (decide (g.slots g.currentSlot = g.targetCode g.currentSlot)) i = true := by
  unfold LockPickerGame.confirmSlot LockPickerGame.unlock
  rw [if_neg (by simp [h])]
  dsimp only
  by_cases hall : ∀ i, Function.update g.correctSlots g.currentSlot
      (decide (g.slots g.currentSlot = g.targetCode g.currentSlot)) i = true
  · rw [if_pos hall]
    simpa using hall
  · rw [if_neg hall]
    simp only [h, Bool.false_eq_true, false_iff]
    exact hall

theorem LockPickerGame.checkCombination_of_locked_match (g : LockPickerGame)
    (h : g.unlocked = false) (hm : ∀ i, g.slots i = g.targetCode i) :
    g.checkCombination = { g with unlocked := true } := by
  simp [LockPickerGame.checkCombination, h, hm, LockPickerGame.unlock]

theorem LockPickerGame.checkCombination_of_locked_mismatch (g : LockPickerGame)
    (h : g.unlocked = false) (hm : ¬ ∀ i, g.slots i = g.targetCode i) :
    g.checkCombination = g := by
  simp [LockPickerGame.checkCombination, h, hm]

theorem LockPickerGame.checkCombination_slots (g : LockPickerGame) :
    (g.checkCombination).slots = g.slots := by
  unfold LockPickerGame.checkCombination
  split
  · rfl
  · split <;> rfl

theorem LockPickerGame.checkCombination_targetCode (g : LockPickerGame) :
    (g.checkCombination).targetCode = g.targetCode := by
  unfold LockPickerGame.checkCombination
  split
  · rfl
  · split <;> rfl

theorem LockPickerGame.checkCombination_random (g : LockPickerGame) :
    (g.checkCombination).random = g.random := by
  unfold LockPickerGame.checkCombination
  split
  · rfl
  · split <;> rfl

/-! ### Reachability invariants used by C4 -/

/-- From a nonnegative seed, `generateTargetCode` produces three digits in
`[0, 10)` and leaves a nonnegative seed. -/
theorem generateTargetCode_bounds (r : SeededRandom) (h : 0 ≤ r.seed) :
    (∀ i, 0 ≤ (generateTargetCode r).1 i ∧ (generateTargetCode r).1 i < 10) ∧
      0 ≤ (generateTargetCode r).2.seed := by
  obtain ⟨h00, h01, h02⟩ := r.nextInt_bounds h 10 (by norm_num)
  obtain ⟨h10, h11, h12⟩ := (r.nextInt 10).2.nextInt_bounds h02 10 (by norm_num)
  obtain ⟨h20, h21, h22⟩ := ((r.nextInt 10).2.nextInt 10).2.nextInt_bounds h12 10 (by norm_num)
  unfold generateTargetCode
  refine ⟨fun i => ?_, h22⟩
  fin_cases i <;>
    simp_all [Matrix.cons_val_zero, Matrix.cons_val_one, Matrix.head_cons]

theorem init_InRange (seed : Int) (h : 0 ≤ seed) :
    InRange (LockPickerGame.init seed) := by
  obtain ⟨ht, hs⟩ := generateTargetCode_bounds ⟨seed⟩ h
  exact ⟨hs, fun i => by fin_cases i <;> simp [LockPickerGame.init], ht⟩

theorem applyOp_InRange (g : LockPickerGame) (op : Op) (h : InRange g) :
    InRange (g.applyOp op) := by
  obtain ⟨hseed, hslots, htarget⟩ := h
  cases op with
  | selectSlot i =>
      show InRange (g.selectSlot i)
      unfold LockPickerGame.selectSlot
      split
      · exact ⟨hseed, hslots, htarget⟩
      · exact ⟨hseed, hslots, htarget⟩
  | changeDigit d =>
      show InRange (g.changeDigit d.toInt)
      cases hu : g.unlocked with
      | true =>
          rw [g.changeDigit_of_unlocked hu]
          exact ⟨hseed, hslots, htarget⟩
      | false =>
          rw [g.changeDigit_of_locked hu]
          refine ⟨hseed, fun i => ?_, htarget⟩
          show 0 ≤ Function.update g.slots g.currentSlot
              ((g.slots g.currentSlot + Direction.toInt d + 10).tmod 10) i ∧
            Function.update g.slots g.currentSlot
              ((g.slots g.currentSlot + Direction.toInt d + 10).tmod 10) i < 10
          by_cases hi : i = g.currentSlot
          · obtain ⟨hl, hr⟩ := hslots g.currentSlot
            rw [hi, Function.update_same]
            have harg : 0 ≤ g.slots g.currentSlot + Direction.toInt d + 10 := by
              cases d <;> simp only [Direction.toInt] <;> omega
            rw [Int.tmod_eq_emod harg (by norm_num)]
            omega
          · rw [Function.update_noteq hi]
            exact hslots i
  | confirmSlot =>
      show InRange g.confirmSlot
      refine ⟨?_, fun i => ?_, fun i => ?_⟩
      · rw [LockPickerGame.confirmSlot_random]
        exact hseed
      · rw [LockPickerGame.confirmSlot_slots]
        exact hslots i
      · rw [LockPickerGame.confirmSlot_targetCode]
        exact htarget i
  | checkCombination =>
      show InRange g.checkCombination
      refine ⟨?_, fun i => ?_, fun i => ?_⟩
      · rw [LockPickerGame.checkCombination_random]
        exact hseed
      · rw [LockPickerGame.checkCombination_slots]
        exact hslots i
      · rw [LockPickerGame.checkCombination_targetCode]
        exact htarget i
  | reset =>
      show InRange g.reset
      obtain ⟨ht, hs⟩ := generateTargetCode_bounds g.random hseed
      exact ⟨hs, fun i => by fin_cases i <;> simp [LockPickerGame.reset], ht⟩

theorem run_InRange (ops : List Op) (g : LockPickerGame) (h : InRange g) :
    InRange (g.run ops) := by
  induction ops generalizing g with
  | nil => exact h
  | cons op ops ih => exact ih _ (applyOp_InRange g op h)

/-! ### Claims C4, C5, C9 -/

/-- C5 (amended): for every *nonnegative* seed state, `next()` returns
`seed' / 233280` with `seed' = (seed * 9301 + 49297) % 233280`, a value in
`[0, 1)`, and `nextInt(max)` returns `floor(next() * max)`, an integer in
`[0, max)`, for every `max ≥ 1`.  (For a negative seed state the JS
remainder is negative and the ranges fail; see the counterexample.) -/
theorem draw_drawInt_contract (r : SeededRandom) (h : 0 ≤ r.seed)
    (max : Int) (hmax : 1 ≤ max) :
    (r.next).2.seed = (r.seed * 9301 + 49297).tmod 233280 ∧
    (r.next).1 = (((r.next).2.seed : ℚ) / 233280) ∧
    0 ≤ (r.next).1 ∧ (r.next).1 < 1 ∧
    (r.nextInt max).1 = ⌊(r.next).1 * (max : ℚ)⌋ ∧
    0 ≤ (r.nextInt max).1 ∧ (r.nextInt max).1 < max := by
  obtain ⟨hs0, hs1⟩ := r.newSeed_bounds h
  obtain ⟨hi0, hi1, -⟩ := r.nextInt_bounds h max hmax
  refine ⟨rfl, rfl, ?_, ?_, rfl, hi0, hi1⟩
  · show (0 : ℚ) ≤ (((r.seed * 9301 + 49297).tmod 233280 : Int) : ℚ) / 233280
    exact div_nonneg (by exact_mod_cast hs0) (by norm_num)
  · show (((r.seed * 9301 + 49297).tmod 233280 : Int) : ℚ) / 233280 < 1
    rw [div_lt_one (by norm_num)]
    exact_mod_cast hs1

theorem draw_drawInt_contract_witness :
    (0 ≤ ((⟨7⟩ : SeededRandom)).seed ∧ 1 ≤ (10 : Int)) ∧
    ((⟨7⟩ : SeededRandom).next).2.seed = ((7 : Int) * 9301 + 49297).tmod 233280 ∧
    ((⟨7⟩ : SeededRandom).next).1 = ((((⟨7⟩ : SeededRandom).next).2.seed : ℚ) / 233280) ∧
    0 ≤ ((⟨7⟩ : SeededRandom).next).1 ∧ ((⟨7⟩ : SeededRandom).next).1 < 1 ∧
    ((⟨7⟩ : SeededRandom).nextInt 10).1 = ⌊((⟨7⟩ : SeededRandom).next).1 * ((10 : Int) : ℚ)⌋ ∧
    0 ≤ ((⟨7⟩ : SeededRandom).nextInt 10).1 ∧ ((⟨7⟩ : SeededRandom).nextInt 10).1 < 10 :=
  ⟨⟨by norm_num, by norm_num⟩, draw_drawInt_contract ⟨7⟩ (by norm_num) 10 (by norm_num)⟩

/-- C5 counterexample: with internal seed -6 (an integer seed state the
claim covers), `next()` returns `-6509 / 233280 < 0`, outside `[0, 1)`,
and `nextInt(10)` returns `-1`, outside `[0, 10)`. -/
theorem draw_negative_seed_counterexample :
    ((⟨-6⟩ : SeededRandom).next).1 < 0 ∧
      ((⟨-6⟩ : SeededRandom).nextInt 10).1 = -1 := by
  constructor
  · show ((((-6 : Int) * 9301 + 49297).tmod 233280 : Int) : ℚ) / 233280 < 0
    have hv : ((-6 : Int) * 9301 + 49297).tmod 233280 = -6509 := by decide
    rw [hv]
    norm_num
  · rw [SeededRandom.nextInt_eq]
    decide

/-- C4 (amended): for every *nonnegative* integer seed the session is
constructed with, and after any sequence of operations, every element of
`digits` and every element of `targetCode` lies in `[0, 10)`.  (For a
negative seed the target code leaves the range; see the counterexample.) -/
theorem digits_targetCode_in_range (seed : Int) (h : 0 ≤ seed) (ops : List Op) :
    ∀ i, (0 ≤ ((LockPickerGame.init seed).run ops).slots i ∧
            ((LockPickerGame.init seed).run ops).slots i < 10) ∧
         (0 ≤ ((LockPickerGame.init seed).run ops).targetCode i ∧
            ((LockPickerGame.init seed).run ops).targetCode i < 10) := by
  have hI := run_InRange ops _ (init_InRange seed h)
  exact fun i => ⟨hI.2.1 i, hI.2.2 i⟩

theorem digits_targetCode_in_range_witness :
    0 ≤ (1 : Int) ∧
    ∀ i, (0 ≤ ((LockPickerGame.init 1).run [Op.changeDigit .down]).slots i ∧
            ((LockPickerGame.init 1).run [Op.changeDigit .down]).slots i < 10) ∧
         (0 ≤ ((LockPickerGame.init 1).run [Op.changeDigit .down]).targetCode i ∧
            ((LockPickerGame.init 1).run [Op.changeDigit .down]).targetCode i < 10) :=
  ⟨by norm_num, digits_targetCode_in_range 1 (by norm_num) [Op.changeDigit .down]⟩

/-- C4 counterexample: constructed with the (negative) integer seed -6,
the first element of `targetCode` is -1, outside `[0, 10)`. -/
theorem init_negative_seed_target_out_of_range :
    (LockPickerGame.init (-6)).targetCode 0 = -1 ∧
      ¬ 0 ≤ (LockPickerGame.init (-6)).targetCode 0 := by
  rw [LockPickerGame.init_neg_six]
  decide

/-- C9 (amended): `reset()` takes no seed argument; it resets `digits` to
`[0,0,0]`, the active slot to 0, all correct flags and `unlocked` to
false, and draws the new `targetCode` by *continuing* the same generator
(three further `nextInt(10)` calls), so the new target code is in general
different from the original (see the counterexample). -/
theorem reset_state_and_target (seed : Int) :
    ((LockPickerGame.init seed).reset).slots = ![0, 0, 0] ∧
    ((LockPickerGame.init seed).reset).currentSlot = 0 ∧
    ((LockPickerGame.init seed).reset).correctSlots = ![false, false, false] ∧
    ((LockPickerGame.init seed).reset).unlocked = false ∧
    ((LockPickerGame.init seed).reset).targetCode =
      (generateTargetCode (LockPickerGame.init seed).random).1 :=
  ⟨rfl, rfl, rfl, rfl, rfl⟩

/-- C9 counterexample: constructed with seed 1 the target code is
`[2, 5, 3]`; after `reset()` (the code's only reset, which reuses the
ongoing generator rather than reseeding with 1) the target code is
`[9, 7, 1]`, different from the original. -/
theorem reset_changes_target :
    (LockPickerGame.init 1).targetCode = ![2, 5, 3] ∧
    ((LockPickerGame.init 1).reset).targetCode = ![9, 7, 1] ∧
    ((LockPickerGame.init 1).reset).targetCode ≠ (LockPickerGame.init 1).targetCode := by
  rw [LockPickerGame.init_one]
  unfold LockPickerGame.reset generateTargetCode
  simp only [SeededRandom.nextInt_eq]
  decide

/-! ### Claims C1, C3, C7, C8, C10 -/

/-- C1: for every locked state, `confirmSlot()` sets `unlocked` to true if
and only if, immediately before the call, the digit in the active slot
equals the target digit for that slot and every other slot's correct flag
was already true. -/
theorem confirmSlot_unlocks_iff (g : LockPickerGame) (h : g.unlocked = false) :
    (g.confirmSlot).unlocked = true ↔
      (g.slots g.currentSlot = g.targetCode g.currentSlot ∧
        ∀ j, j ≠ g.currentSlot → g.correctSlots j = true) := by
  rw [g.confirmSlot_unlocked_iff h,
    Function.forall_update_iff g.correctSlots fun _ v => v = true]
  simp only [decide_eq_true_eq]

theorem confirmSlot_unlocks_iff_witness :
    ({ slots := ![2, 5, 3], currentSlot := 2, targetCode := ![2, 5, 3],
       correctSlots := ![true, true, false], unlocked := false,
       random := ⟨0⟩ } : LockPickerGame).unlocked = false ∧
    ((({ slots := ![2, 5, 3], currentSlot := 2, targetCode := ![2, 5, 3],
         correctSlots := ![true, true, false], unlocked := false,
         random := ⟨0⟩ } : LockPickerGame).confirmSlot).unlocked = true ↔
      (({ slots := ![2, 5, 3], currentSlot := 2, targetCode := ![2, 5, 3],
          correctSlots := ![true, true, false], unlocked := false,
          random := ⟨0⟩ } : LockPickerGame).slots 2 =
        ({ slots := ![2, 5, 3], currentSlot := 2, targetCode := ![2, 5, 3],
           correctSlots := ![true, true, false], unlocked := false,
           random := ⟨0⟩ } : LockPickerGame).targetCode 2 ∧
        ∀ j, j ≠ (2 : Fin 3) →
          ({ slots := ![2, 5, 3], currentSlot := 2, targetCode := ![2, 5, 3],
             correctSlots := ![true, true, false], unlocked := false,
             random := ⟨0⟩ } : LockPickerGame).correctSlots j = true)) :=
  ⟨rfl, confirmSlot_unlocks_iff _ rfl⟩

/-- C3: the unlocked state is absorbing: in any state with `unlocked =
true`, `selectSlot(i)` for any integer `i`, `changeDigit(d)`,
`confirmSlot()` and `checkCombination()` leave the entire state (all
observable fields) unchanged. -/
theorem unlocked_absorbing (g : LockPickerGame) (h : g.unlocked = true)
    (i d : Int) :
    g.selectSlot i = g ∧ g.changeDigit d = g ∧
      g.confirmSlot = g ∧ g.checkCombination = g :=
  ⟨g.selectSlot_of_unlocked h i, g.changeDigit_of_unlocked h d,
    g.confirmSlot_of_unlocked h, g.checkCombination_of_unlocked h⟩

theorem unlocked_absorbing_witness :
    ({ slots := ![1, 2, 3], currentSlot := 1, targetCode := ![1, 2, 3],
       correctSlots := ![true, true, true], unlocked := true,
       random := ⟨5⟩ } : LockPickerGame).unlocked = true ∧
    (({ slots := ![1, 2, 3], currentSlot := 1, targetCode := ![1, 2, 3],
        correctSlots := ![true, true, true], unlocked := true,
        random := ⟨5⟩ } : LockPickerGame).selectSlot 2 =
      { slots := ![1, 2, 3], currentSlot := 1, targetCode := ![1, 2, 3],
        correctSlots := ![true, true, true], unlocked := true, random := ⟨5⟩ } ∧
     ({ slots := ![1, 2, 3], currentSlot := 1, targetCode := ![1, 2, 3],
        correctSlots := ![true, true, true], unlocked := true,
        random := ⟨5⟩ } : LockPickerGame).changeDigit (-1) =
      { slots := ![1, 2, 3], currentSlot := 1, targetCode := ![1, 2, 3],
        correctSlots := ![true, true, true], unlocked := true, random := ⟨5⟩ } ∧
     ({ slots := ![1, 2, 3], currentSlot := 1, targetCode := ![1, 2, 3],
        correctSlots := ![true, true, true], unlocked := true,
        random := ⟨5⟩ } : LockPickerGame).confirmSlot =
      { slots := ![1, 2, 3], currentSlot := 1, targetCode := ![1, 2, 3],
        correctSlots := ![true, true, true], unlocked := true, random := ⟨5⟩ } ∧
     ({ slots := ![1, 2, 3], currentSlot := 1, targetCode := ![1, 2, 3],
        correctSlots := ![true, true, true], unlocked := true,
        random := ⟨5⟩ } : LockPickerGame).checkCombination =
      { slots := ![1, 2, 3], currentSlot := 1, targetCode := ![1, 2, 3],
        correctSlots := ![true, true, true], unlocked := true, random := ⟨5⟩ }) :=
  ⟨rfl, unlocked_absorbing _ rfl 2 (-1)⟩

/-- C7 (amended): in every *locked* state, `selectSlot(i)` with
`i ∈ {0,1,2}` sets the active slot to `i` and changes nothing else; for
every integer `i` outside `{0,1,2}` (in any state) `selectSlot(i)` leaves
the whole state unchanged.  In an unlocked state `selectSlot` is a no-op
even for in-range `i` (see the counterexample to the unamended claim). -/
theorem selectSlot_behavior :
    (∀ (g : LockPickerGame) (i : Int), g.unlocked = false → 0 ≤ i → i < 3 →
        ((g.selectSlot i).currentSlot : Nat) = i.toNat ∧
        (g.selectSlot i).slots = g.slots ∧
        (g.selectSlot i).targetCode = g.targetCode ∧
        (g.selectSlot i).correctSlots = g.correctSlots ∧
        (g.selectSlot i).unlocked = g.unlocked ∧
        (g.selectSlot i).random = g.random) ∧
    (∀ (g : LockPickerGame) (i : Int), i < 0 ∨ 3 ≤ i → g.selectSlot i = g) := by
  constructor
  · intro g i h h0 h3
    rw [g.selectSlot_of_locked h i h0 h3]
    exact ⟨rfl, rfl, rfl, rfl, rfl, rfl⟩
  · intro g i h
    exact g.selectSlot_of_out i h

theorem selectSlot_behavior_witness :
    (({ slots := ![0, 0, 0], currentSlot := 0, targetCode := ![2, 5, 3],
        correctSlots := ![false, false, false], unlocked := false,
        random := ⟨0⟩ } : LockPickerGame).unlocked = false ∧
      ((({ slots := ![0, 0, 0], currentSlot := 0, targetCode := ![2, 5, 3],
           correctSlots := ![false, false, false], unlocked := false,
           random := ⟨0⟩ } : LockPickerGame).selectSlot 1).currentSlot : Nat) =
        (1 : Int).toNat) ∧
    ({ slots := ![0, 0, 0], currentSlot := 0, targetCode := ![2, 5, 3],
       correctSlots := ![false, false, false], unlocked := false,
       random := ⟨0⟩ } : LockPickerGame).selectSlot 7 =
      { slots := ![0, 0, 0], currentSlot := 0, targetCode := ![2, 5, 3],
        correctSlots := ![false, false, false], unlocked := false,
        random := ⟨0⟩ } :=
  ⟨⟨rfl, (selectSlot_behavior.1 _ 1 rfl (by norm_num) (by norm_num)).1⟩,
    selectSlot_behavior.2 _ 7 (Or.inr (by norm_num))⟩

/-- C8: for every locked state, `confirmSlot()` sets the active slot's
correct flag to whether the active digit equals its target, and advances
the active slot to `min(activeSlot + 1, 2)` exactly when that comparison
is true (never wrapping past the last slot); on a false comparison the
active slot is unchanged. -/
theorem confirmSlot_flag_and_advance (g : LockPickerGame)
    (h : g.unlocked = false) :
    (g.confirmSlot).correctSlots =
      Function.update g.correctSlots g.currentSlot
        (decide (g.slots g.currentSlot = g.targetCode g.currentSlot)) ∧
    ((g.confirmSlot).currentSlot : Nat) =
      (if g.slots g.currentSlot = g.targetCode g.currentSlot
       then min ((g.currentSlot : Nat) + 1) 2
       else (g.currentSlot : Nat)) :=
  ⟨g.confirmSlot_correctSlots h, g.confirmSlot_currentSlot h⟩

theorem confirmSlot_flag_and_advance_witness :
    ({ slots := ![2, 0, 0], currentSlot := 0, targetCode := ![2, 5, 3],
       correctSlots := ![false, false, false], unlocked := false,
       random := ⟨0⟩ } : LockPickerGame).unlocked = false ∧
    (({ slots := ![2, 0, 0], currentSlot := 0, targetCode := ![2, 5, 3],
        correctSlots := ![false, false, false], unlocked := false,
        random := ⟨0⟩ } : LockPickerGame).confirmSlot).correctSlots =
      Function.update
        (({ slots := ![2, 0, 0], currentSlot := 0, targetCode := ![2, 5, 3],
            correctSlots := ![false, false, false], unlocked := false,
            random := ⟨0⟩ } : LockPickerGame)).correctSlots 0
        (decide ((2 : Int) = 2)) ∧
    ((({ slots := ![2, 0, 0], currentSlot := 0, targetCode := ![2, 5, 3],
         correctSlots := ![false, false, false], unlocked := false,
         random := ⟨0⟩ } : LockPickerGame).confirmSlot).currentSlot : Nat) =
      (if (2 : Int) = 2 then min (0 + 1) 2 else 0) :=
  ⟨rfl, confirmSlot_flag_and_advance _ rfl⟩

/-- C10: for every locked state, `checkCombination()` unlocks exactly when
every digit equals its target; on a mismatch it only emits the rejection
feedback and leaves every state field unchanged. -/
theorem checkCombination_behavior (g : LockPickerGame)
    (h : g.unlocked = false) :
    ((∀ i, g.slots i = g.targetCode i) →
        g.checkCombination = { g with unlocked := true }) ∧
    ((¬ ∀ i, g.slots i = g.targetCode i) → g.checkCombination = g) :=
  ⟨g.checkCombination_of_locked_match h, g.checkCombination_of_locked_mismatch h⟩

theorem checkCombination_behavior_witness :
    ({ slots := ![2, 5, 0], currentSlot := 2, targetCode := ![2, 5, 3],
       correctSlots := ![false, false, false], unlocked := false,
       random := ⟨0⟩ } : LockPickerGame).unlocked = false ∧
    (((∀ i, ({ slots := ![2, 5, 0], currentSlot := 2, targetCode := ![2, 5, 3],
               correctSlots := ![false, false, false], unlocked := false,
               random := ⟨0⟩ } : LockPickerGame).slots i =
             ({ slots := ![2, 5, 0], currentSlot := 2, targetCode := ![2, 5, 3],
                correctSlots := ![false, false, false], unlocked := false,
                random := ⟨0⟩ } : LockPickerGame).targetCode i) →
        ({ slots := ![2, 5, 0], currentSlot := 2, targetCode := ![2, 5, 3],
           correctSlots := ![false, false, false], unlocked := false,
           random := ⟨0⟩ } : LockPickerGame).checkCombination =
          { slots := ![2, 5, 0], currentSlot := 2, targetCode := ![2, 5, 3],
            correctSlots := ![false, false, false], unlocked := true,
            random := ⟨0⟩ }) ∧
      ((¬ ∀ i, ({ slots := ![2, 5, 0], currentSlot := 2, targetCode := ![2, 5, 3],
                  correctSlots := ![false, false, false], unlocked := false,
                  random := ⟨0⟩ } : LockPickerGame).slots i =
              ({ slots := ![2, 5, 0], currentSlot := 2, targetCode := ![2, 5, 3],
                 correctSlots := ![false, false, false], unlocked := false,
                 random := ⟨0⟩ } : LockPickerGame).targetCode i) →
        ({ slots := ![2, 5, 0], currentSlot := 2, targetCode := ![2, 5, 3],
           correctSlots := ![false, false, false], unlocked := false,
           random := ⟨0⟩ } : LockPickerGame).checkCombination =
          { slots := ![2, 5, 0], currentSlot := 2, targetCode := ![2, 5, 3],
            correctSlots := ![false, false, false], unlocked := false,
            random := ⟨0⟩ })) :=
  ⟨rfl, checkCombination_behavior _ rfl⟩

/-! ### Claim C6: changeDigit as the Z/10 action on the active slot -/

/-- Iterating `changeDigit 1` on a locked state with an in-range active
digit: the state stays locked, the active slot never moves, and the active
digit advances modulo 10. -/
theorem changeDigit_up_iterate (g : LockPickerGame) (h : g.unlocked = false)
    (h0 : 0 ≤ g.slots g.currentSlot) (h1 : g.slots g.currentSlot < 10) :
    ∀ k : Nat,
      ((fun s => s.changeDigit 1)^[k] g).unlocked = false ∧
      ((fun s => s.changeDigit 1)^[k] g).currentSlot = g.currentSlot ∧
      ((fun s => s.changeDigit 1)^[k] g).slots =
        fun j => if j = g.currentSlot
          then (g.slots g.currentSlot + (k : Int)) % 10 else g.slots j := by
  intro k
  induction k with
  | zero =>
      refine ⟨h, rfl, funext fun j => ?_⟩
      rw [Function.iterate_zero_apply]
      by_cases hj : j = g.currentSlot
      · rw [hj, if_pos rfl, Nat.cast_zero, add_zero]
        omega
      · rw [if_neg hj]
  | succ k ih =>
      obtain ⟨ihu, ihc, ihs⟩ := ih
      rw [Function.iterate_succ_apply']
      rw [LockPickerGame.changeDigit_of_locked _ ihu 1]
      refine ⟨ihu, ihc, ?_⟩
      have hval : ((fun s => s.changeDigit 1)^[k] g).slots g.currentSlot =
          (g.slots g.currentSlot + (k : Int)) % 10 := by
        rw [congrFun ihs g.currentSlot, if_pos rfl]
      show Function.update ((fun s => s.changeDigit 1)^[k] g).slots
          ((fun s => s.changeDigit 1)^[k] g).currentSlot
          ((((fun s => s.changeDigit 1)^[k] g).slots
              ((fun s => s.changeDigit 1)^[k] g).currentSlot + 1 + 10).tmod 10) =
        fun j => if j = g.currentSlot
          then (g.slots g.currentSlot + ((k : Nat) + 1 : Int)) % 10 else g.slots j
      funext j
      rw [Function.update_apply, ihc, hval, congrFun ihs j]
      have harg : 0 ≤ (g.slots g.currentSlot + (k : Int)) % 10 + 1 + 10 := by
        omega
      by_cases hj : j = g.currentSlot
      · rw [if_pos hj, if_pos hj, Int.tmod_eq_emod harg (by norm_num)]
        omega
      · rw [if_neg hj, if_neg hj, if_neg hj]

/-- The round trip `changeDigit d` then `changeDigit d'` with `d + d' = 0`
restores the dial digits on a locked in-range state. -/
theorem changeDigit_round_trip (g : LockPickerGame) (h : g.unlocked = false)
    (h0 : 0 ≤ g.slots g.currentSlot) (h1 : g.slots g.currentSlot < 10)
    (d d' : Int) (hd0 : -1 ≤ d) (hd1 : d ≤ 1) (hdd : d + d' = 0) :
    ((g.changeDigit d).changeDigit d').slots = g.slots := by
  have hu1 : (g.changeDigit d).unlocked = false := by
    rw [g.changeDigit_of_locked h d]
    exact h
  have hc1 : (g.changeDigit d).currentSlot = g.currentSlot := by
    rw [g.changeDigit_of_locked h d]
  have hs1 : (g.changeDigit d).slots =
      Function.update g.slots g.currentSlot
        ((g.slots g.currentSlot + d + 10).tmod 10) := by
    rw [g.changeDigit_of_locked h d]
  rw [LockPickerGame.changeDigit_of_locked _ hu1 d']
  show Function.update (g.changeDigit d).slots (g.changeDigit d).currentSlot
      (((g.changeDigit d).slots (g.changeDigit d).currentSlot + d' + 10).tmod 10) =
    g.slots
  rw [hc1, hs1, Function.update_idem, Function.update_same]
  have harg : 0 ≤ g.slots g.currentSlot + d + 10 := by omega
  rw [Int.tmod_eq_emod harg (by norm_num)]
  have harg' : 0 ≤ (g.slots g.currentSlot + d + 10) % 10 + d' + 10 := by omega
  rw [Int.tmod_eq_emod harg' (by norm_num)]
  have hval : ((g.slots g.currentSlot + d + 10) % 10 + d' + 10) % 10 =
      g.slots g.currentSlot := by omega
  rw [hval, Function.update_eq_self]

/-- C6: for every locked state whose active digit is in `[0, 10)` (as in
every reachable state), `changeDigit` acts as the `Z/10` action on the
active slot: `+1` then `-1` (and `-1` then `+1`) restore the digits, ten
`+1` steps restore the digits, and the active slot never moves; in
particular, from `digits = [0,0,0]` with active slot 0, `changeDigit(-1)`
yields `digits = [9,0,0]` with the active slot unchanged. -/
theorem changeDigit_group_action :
    (∀ g : LockPickerGame, g.unlocked = false →
      0 ≤ g.slots g.currentSlot → g.slots g.currentSlot < 10 →
      ((g.changeDigit 1).changeDigit (-1)).slots = g.slots ∧
      ((g.changeDigit (-1)).changeDigit 1).slots = g.slots ∧
      ((fun s => s.changeDigit 1)^[10] g).slots = g.slots ∧
      (g.changeDigit 1).currentSlot = g.currentSlot ∧
      (g.changeDigit (-1)).currentSlot = g.currentSlot) ∧
    (∀ g : LockPickerGame, g.unlocked = false → g.slots = ![0, 0, 0] →
      g.currentSlot = 0 →
      (g.changeDigit (-1)).slots = ![9, 0, 0] ∧
      (g.changeDigit (-1)).currentSlot = g.currentSlot) := by
  constructor
  · intro g h h0 h1
    refine ⟨changeDigit_round_trip g h h0 h1 1 (-1) (by norm_num) (by norm_num)
        (by norm_num),
      changeDigit_round_trip g h h0 h1 (-1) 1 (by norm_num) (by norm_num)
        (by norm_num), ?_, ?_, ?_⟩
    · obtain ⟨-, -, hs⟩ := changeDigit_up_iterate g h h0 h1 10
      rw [hs]
      funext j
      by_cases hj : j = g.currentSlot
      · rw [if_pos hj, hj]
        omega
      · rw [if_neg hj]
    · rw [g.changeDigit_of_locked h 1]
    · rw [g.changeDigit_of_locked h (-1)]
  · intro g h hs hc
    refine ⟨?_, by rw [g.changeDigit_of_locked h (-1)]⟩
    rw [g.changeDigit_of_locked h (-1)]
    show Function.update g.slots g.currentSlot
        ((g.slots g.currentSlot + (-1) + 10).tmod 10) = ![9, 0, 0]
    rw [hs, hc]
    decide

theorem changeDigit_group_action_witness :
    (sampleDial.unlocked = false ∧
      0 ≤ sampleDial.slots sampleDial.currentSlot ∧
      sampleDial.slots sampleDial.currentSlot < 10 ∧
      sampleZero.unlocked = false ∧ sampleZero.slots = ![0, 0, 0] ∧
      sampleZero.currentSlot = 0) ∧
    ((sampleDial.changeDigit 1).changeDigit (-1)).slots = sampleDial.slots ∧
    (sampleZero.changeDigit (-1)).slots = ![9, 0, 0] ∧
    (sampleZero.changeDigit (-1)).currentSlot = sampleZero.currentSlot :=
  ⟨⟨rfl, by norm_num [sampleDial], by norm_num [sampleDial], rfl, rfl, rfl⟩,
    (changeDigit_group_action.1 sampleDial rfl (by norm_num [sampleDial])
      (by norm_num [sampleDial])).1,
    (changeDigit_group_action.2 sampleZero rfl rfl rfl).1,
    (changeDigit_group_action.2 sampleZero rfl rfl rfl).2⟩

/-! ### Claim C2: the unlocked/flags coupling -/

theorem applyOp_coupled (g : LockPickerGame) (op : Op)
    (hop : op ≠ Op.checkCombination) (h : UnlockedCoupled g) :
    UnlockedCoupled (g.applyOp op) := by
  cases op with
  | selectSlot i =>
      show UnlockedCoupled (g.selectSlot i)
      unfold LockPickerGame.selectSlot
      split
      · exact h
      · exact h
  | changeDigit d =>
      show UnlockedCoupled (g.changeDigit d.toInt)
      cases hu : g.unlocked with
      | true =>
          rw [g.changeDigit_of_unlocked hu]
          exact h
      | false =>
          rw [g.changeDigit_of_locked hu]
          constructor
          · intro hf
            have hf' : g.unlocked = true := hf
            rw [hu] at hf'
            cases hf'
          · intro hall
            have h2 : Function.update g.correctSlots g.currentSlot false
                g.currentSlot = true := hall g.currentSlot
            rw [Function.update_same] at h2
            cases h2
  | confirmSlot =>
      show UnlockedCoupled g.confirmSlot
      cases hu : g.unlocked with
      | true =>
          rw [g.confirmSlot_of_unlocked hu]
          exact h
      | false =>
          show g.confirmSlot.unlocked = true ↔ ∀ i, g.confirmSlot.correctSlots i = true
          rw [g.confirmSlot_unlocked_iff hu, g.confirmSlot_correctSlots hu]
  | checkCombination => exact absurd rfl hop
  | reset =>
      show UnlockedCoupled g.reset
      constructor
      · intro hf
        have hf' : false = true := hf
        cases hf'
      · intro hall
        have h0 : (![false, false, false] : Fin 3 → Bool) 0 = true := hall 0
        cases h0

theorem run_coupled (ops : List Op) (hops : Op.checkCombination ∉ ops)
    (g : LockPickerGame) (h : UnlockedCoupled g) :
    UnlockedCoupled (g.run ops) := by
  induction ops generalizing g with
  | nil => exact h
  | cons op ops ih =>
      have hop : op ≠ Op.checkCombination := fun he => hops (he ▸ List.mem_cons_self op ops)
      have hops' : Op.checkCombination ∉ ops := fun hm => hops (List.mem_cons_of_mem op hm)
      exact ih hops' _ (applyOp_coupled g op hop h)

theorem init_coupled (seed : Int) : UnlockedCoupled (LockPickerGame.init seed) := by
  constructor
  · intro hf
    have hf' : false = true := hf
    cases hf'
  · intro hall
    have h0 : (![false, false, false] : Fin 3 → Bool) 0 = true := hall 0
    cases h0

/-- C2 (amended): in every state reachable without the alternate
full-combination check path, `unlocked` is true exactly when all three
correct flags are true.  The `checkCombination()` path, however, sets
`unlocked` directly from the digit comparison without touching the flags,
so the coupling fails on states reached through it (see the
counterexample). -/
theorem unlocked_iff_all_correct (seed : Int) (ops : List Op)
    (hops : Op.checkCombination ∉ ops) :
    ((LockPickerGame.init seed).run ops).unlocked = true ↔
      ∀ i, ((LockPickerGame.init seed).run ops).correctSlots i = true :=
  run_coupled ops hops _ (init_coupled seed)

theorem unlocked_iff_all_correct_witness :
    Op.checkCombination ∉ [Op.changeDigit Direction.up, Op.confirmSlot] ∧
    (((LockPickerGame.init 1).run [Op.changeDigit Direction.up, Op.confirmSlot]).unlocked = true ↔
      ∀ i, ((LockPickerGame.init 1).run
        [Op.changeDigit Direction.up, Op.confirmSlot]).correctSlots i = true) :=
  ⟨by simp, unlocked_iff_all_correct 1 [Op.changeDigit Direction.up, Op.confirmSlot] (by simp)⟩

/-- Pointwise extensionality for game states, used to evaluate traces one
step at a time. -/
theorem LockPickerGame.ext_of (g g' : LockPickerGame)
    (hs : ∀ i, g.slots i = g'.slots i) (hc : g.currentSlot = g'.currentSlot)
    (ht : ∀ i, g.targetCode i = g'.targetCode i)
    (hf : ∀ i, g.correctSlots i = g'.correctSlots i)
    (hu : g.unlocked = g'.unlocked) (hr : g.random = g'.random) : g = g' := by
  obtain ⟨s, c, t, f, u, r⟩ := g
  obtain ⟨s', c', t', f', u', r'⟩ := g'
  rw [LockPickerGame.mk.injEq]
  exact ⟨funext hs, hc, funext ht, funext hf, hu, hr⟩

/-- C2 counterexample: from seed 1 (target `[2,5,3]`), dial the full code
with `changeDigit`/`selectSlot` only and call `checkCombination()`: the
resulting reachable state has `unlocked = true` while all three
`slotCorrect` flags are still false. -/
theorem fullcheck_unlocks_without_flags :
    ((LockPickerGame.init 1).run
        [Op.changeDigit Direction.up, Op.changeDigit Direction.up,
         Op.selectSlot 1, Op.changeDigit Direction.up, Op.changeDigit Direction.up,
         Op.changeDigit Direction.up, Op.changeDigit Direction.up,
         Op.changeDigit Direction.up,
         Op.selectSlot 2, Op.changeDigit Direction.up, Op.changeDigit Direction.up,
         Op.changeDigit Direction.up,
         Op.checkCombination]).unlocked = true ∧
    ((LockPickerGame.init 1).run
        [Op.changeDigit Direction.up, Op.changeDigit Direction.up,
         Op.selectSlot 1, Op.changeDigit Direction.up, Op.changeDigit Direction.up,
         Op.changeDigit Direction.up, Op.changeDigit Direction.up,
         Op.changeDigit Direction.up,
         Op.selectSlot 2, Op.changeDigit Direction.up, Op.changeDigit Direction.up,
         Op.changeDigit Direction.up,
         Op.checkCombination]).correctSlots 0 = false := by
  rw [LockPickerGame.init_one]
  unfold LockPickerGame.run
  have ha0 : ({ slots := ![0, 0, 0], currentSlot := 0, targetCode := ![2, 5, 3], correctSlots := ![false, false, false], unlocked := false, random := ⟨79852⟩ } : LockPickerGame).applyOp (Op.changeDigit Direction.up) = ({ slots := ![1, 0, 0], currentSlot := 0, targetCode := ![2, 5, 3], correctSlots := ![false, false, false], unlocked := false, random := ⟨79852⟩ } : LockPickerGame) :=
    LockPickerGame.ext_of _ _ (by decide) (by decide) (by decide) (by decide) (by decide) (by decide)
  rw [List.foldl_cons, ha0]
  have ha1 : ({ slots := ![1, 0, 0], currentSlot := 0, targetCode := ![2, 5, 3], correctSlots := ![false, false, false], unlocked := false, random := ⟨79852⟩ } : LockPickerGame).applyOp (Op.changeDigit Direction.up) = ({ slots := ![2, 0, 0], currentSlot := 0, targetCode := ![2, 5, 3], correctSlots := ![false, false, false], unlocked := false, random := ⟨79852⟩ } : LockPickerGame) :=
    LockPickerGame.ext_of _ _ (by decide) (by decide) (by decide) (by decide) (by decide) (by decide)
  rw [List.foldl_cons, ha1]
  have ha2 : ({ slots := ![2, 0, 0], currentSlot := 0, targetCode := ![2, 5, 3], correctSlots := ![false, false, false], unlocked := false, random := ⟨79852⟩ } : LockPickerGame).applyOp (Op.selectSlot 1) = ({ slots := ![2, 0, 0], currentSlot := 1, targetCode := ![2, 5, 3], correctSlots := ![false, false, false], unlocked := false, random := ⟨79852⟩ } : LockPickerGame) :=
    LockPickerGame.ext_of _ _ (by decide) (by decide) (by decide) (by decide) (by decide) (by decide)
  rw [List.foldl_cons, ha2]
  have ha3 : ({ slots := ![2, 0, 0], currentSlot := 1, targetCode := ![2, 5, 3], correctSlots := ![false, false, false], unlocked := false, random := ⟨79852⟩ } : LockPickerGame).applyOp (Op.changeDigit Direction.up) = ({ slots := ![2, 1, 0], currentSlot := 1, targetCode := ![2, 5, 3], correctSlots := ![false, false, false], unlocked := false, random := ⟨79852⟩ } : LockPickerGame) :=
    LockPickerGame.ext_of _ _ (by decide) (by decide) (by decide) (by decide) (by decide) (by decide)
  rw [List.foldl_cons, ha3]
  have ha4 : ({ slots := ![2, 1, 0], currentSlot := 1, targetCode := ![2, 5, 3], correctSlots := ![false, false, false], unlocked := false, random := ⟨79852⟩ } : LockPickerGame).applyOp (Op.changeDigit Direction.up) = ({ slots := ![2, 2, 0], currentSlot := 1, targetCode := ![2, 5, 3], correctSlots := ![false, false, false], unlocked := false, random := ⟨79852⟩ } : LockPickerGame) :=
    LockPickerGame.ext_of _ _ (by decide) (by decide) (by decide) (by decide) (by decide) (by decide)
  rw [List.foldl_cons, ha4]
  have ha5 : ({ slots := ![2, 2, 0], currentSlot := 1, targetCode := ![2, 5, 3], correctSlots := ![false, false, false], unlocked := false, random := ⟨79852⟩ } : LockPickerGame).applyOp (Op.changeDigit Direction.up) = ({ slots := ![2, 3, 0], currentSlot := 1, targetCode := ![2, 5, 3], correctSlots := ![false, false, false], unlocked := false, random := ⟨79852⟩ } : LockPickerGame) :=
    LockPickerGame.ext_of _ _ (by decide) (by decide) (by decide) (by decide) (by decide) (by decide)
  rw [List.foldl_cons, ha5]
  have ha6 : ({ slots := ![2, 3, 0], currentSlot := 1, targetCode := ![2, 5, 3], correctSlots := ![false, false, false], unlocked := false, random := ⟨79852⟩ } : LockPickerGame).applyOp (Op.changeDigit Direction.up) = ({ slots := ![2, 4, 0], currentSlot := 1, targetCode := ![2, 5, 3], correctSlots := ![false, false, false], unlocked := false, random := ⟨79852⟩ } : LockPickerGame) :=
    LockPickerGame.ext_of _ _ (by decide) (by decide) (by decide) (by decide) (by decide) (by decide)
  rw [List.foldl_cons, ha6]
  have ha7 : ({ slots := ![2, 4, 0], currentSlot := 1, targetCode := ![2, 5, 3], correctSlots := ![false, false, false], unlocked := false, random := ⟨79852⟩ } : LockPickerGame).applyOp (Op.changeDigit Direction.up) = ({ slots := ![2, 5, 0], currentSlot := 1, targetCode := ![2, 5, 3], correctSlots := ![false, false, false], unlocked := false, random := ⟨79852⟩ } : LockPickerGame) :=
    LockPickerGame.ext_of _ _ (by decide) (by decide) (by decide) (by decide) (by decide) (by decide)
  rw [List.foldl_cons, ha7]
  have ha8 : ({ slots := ![2, 5, 0], currentSlot := 1, targetCode := ![2, 5, 3], correctSlots := ![false, false, false], unlocked := false, random := ⟨79852⟩ } : LockPickerGame).applyOp (Op.selectSlot 2) = ({ slots := ![2, 5, 0], currentSlot := 2, targetCode := ![2, 5, 3], correctSlots := ![false, false, false], unlocked := false, random := ⟨79852⟩ } : LockPickerGame) :=
    LockPickerGame.ext_of _ _ (by decide) (by decide) (by decide) (by decide) (by decide) (by decide)
  rw [List.foldl_cons, ha8]
  have ha9 : ({ slots := ![2, 5, 0], currentSlot := 2, targetCode := ![2, 5, 3], correctSlots := ![false, false, false], unlocked := false, random := ⟨79852⟩ } : LockPickerGame).applyOp (Op.changeDigit Direction.up) = ({ slots := ![2, 5, 1], currentSlot := 2, targetCode := ![2, 5, 3], correctSlots := ![false, false, false], unlocked := false, random := ⟨79852⟩ } : LockPickerGame) :=
    LockPickerGame.ext_of _ _ (by decide) (by decide) (by decide) (by decide) (by decide) (by decide)
  rw [List.foldl_cons, ha9]
  have ha10 : ({ slots := ![2, 5, 1], currentSlot := 2, targetCode := ![2, 5, 3], correctSlots := ![false, false, false], unlocked := false, random := ⟨79852⟩ } : LockPickerGame).applyOp (Op.changeDigit Direction.up) = ({ slots := ![2, 5, 2], currentSlot := 2, targetCode := ![2, 5, 3], correctSlots := ![false, false, false], unlocked := false, random := ⟨79852⟩ } : LockPickerGame) :=
    LockPickerGame.ext_of _ _ (by decide) (by decide) (by decide) (by decide) (by decide) (by decide)
  rw [List.foldl_cons, ha10]
  have ha11 : ({ slots := ![2, 5, 2], currentSlot := 2, targetCode := ![2, 5, 3], correctSlots := ![false, false, false], unlocked := false, random := ⟨79852⟩ } : LockPickerGame).applyOp (Op.changeDigit Direction.up) = ({ slots := ![2, 5, 3], currentSlot := 2, targetCode := ![2, 5, 3], correctSlots := ![false, false, false], unlocked := false, random := ⟨79852⟩ } : LockPickerGame) :=
    LockPickerGame.ext_of _ _ (by decide) (by decide) (by decide) (by decide) (by decide) (by decide)
  rw [List.foldl_cons, ha11]
  have ha12 : ({ slots := ![2, 5, 3], currentSlot := 2, targetCode := ![2, 5, 3], correctSlots := ![false, false, false], unlocked := false, random := ⟨79852⟩ } : LockPickerGame).applyOp (Op.checkCombination) = ({ slots := ![2, 5, 3], currentSlot := 2, targetCode := ![2, 5, 3], correctSlots := ![false, false, false], unlocked := true, random := ⟨79852⟩ } : LockPickerGame) :=
    LockPickerGame.ext_of _ _ (by decide) (by decide) (by decide) (by decide) (by decide) (by decide)
  rw [List.foldl_cons, ha12]
  rw [List.foldl_nil]
  exact ⟨rfl, rfl⟩

/-- C7 counterexample: from seed 1, confirm all three slots (a reachable
unlocked state whose active slot is 2); a further `selectSlot 0` leaves
the active slot at 2 instead of setting it to 0, because `selectSlot` is a
no-op once unlocked. -/
theorem selectSlot_frozen_after_unlock :
    ((LockPickerGame.init 1).run
        [Op.changeDigit Direction.up, Op.changeDigit Direction.up, Op.confirmSlot,
         Op.changeDigit Direction.up, Op.changeDigit Direction.up,
         Op.changeDigit Direction.up, Op.changeDigit Direction.up,
         Op.changeDigit Direction.up, Op.confirmSlot,
         Op.changeDigit Direction.up, Op.changeDigit Direction.up,
         Op.changeDigit Direction.up, Op.confirmSlot]).unlocked = true ∧
    (((LockPickerGame.init 1).run
        [Op.changeDigit Direction.up, Op.changeDigit Direction.up, Op.confirmSlot,
         Op.changeDigit Direction.up, Op.changeDigit Direction.up,
         Op.changeDigit Direction.up, Op.changeDigit Direction.up,
         Op.changeDigit Direction.up, Op.confirmSlot,
         Op.changeDigit Direction.up, Op.changeDigit Direction.up,
         Op.changeDigit Direction.up, Op.confirmSlot]).selectSlot 0).currentSlot ≠ 0 := by
  rw [LockPickerGame.init_one]
  unfold LockPickerGame.run
  have hb0 : ({ slots := ![0, 0, 0], currentSlot := 0, targetCode := ![2, 5, 3], correctSlots := ![false, false, false], unlocked := false, random := ⟨79852⟩ } : LockPickerGame).applyOp (Op.changeDigit Direction.up) = ({ slots := ![1, 0, 0], currentSlot := 0, targetCode := ![2, 5, 3], correctSlots := ![false, false, false], unlocked := false, random := ⟨79852⟩ } : LockPickerGame) :=
    LockPickerGame.ext_of _ _ (by decide) (by decide) (by decide) (by decide) (by decide) (by decide)
  rw [List.foldl_cons, hb0]
  have hb1 : ({ slots := ![1, 0, 0], currentSlot := 0, targetCode := ![2, 5, 3], correctSlots := ![false, false, false], unlocked := false, random := ⟨79852⟩ } : LockPickerGame).applyOp (Op.changeDigit Direction.up) = ({ slots := ![2, 0, 0], currentSlot := 0, targetCode := ![2, 5, 3], correctSlots := ![false, false, false], unlocked := false, random := ⟨79852⟩ } : LockPickerGame) :=
    LockPickerGame.ext_of _ _ (by decide) (by decide) (by decide) (by decide) (by decide) (by decide)
  rw [List.foldl_cons, hb1]
  have hb2 : ({ slots := ![2, 0, 0], currentSlot := 0, targetCode := ![2, 5, 3], correctSlots := ![false, false, false], unlocked := false, random := ⟨79852⟩ } : LockPickerGame).applyOp (Op.confirmSlot) = ({ slots := ![2, 0, 0], currentSlot := 1, targetCode := ![2, 5, 3], correctSlots := ![true, false, false], unlocked := false, random := ⟨79852⟩ } : LockPickerGame) :=
    LockPickerGame.ext_of _ _ (by decide) (by decide) (by decide) (by decide) (by decide) (by decide)
  rw [List.foldl_cons, hb2]
  have hb3 : ({ slots := ![2, 0, 0], currentSlot := 1, targetCode := ![2, 5, 3], correctSlots := ![true, false, false], unlocked := false, random := ⟨79852⟩ } : LockPickerGame).applyOp (Op.changeDigit Direction.up) = ({ slots := ![2, 1, 0], currentSlot := 1, targetCode := ![2, 5, 3], correctSlots := ![true, false, false], unlocked := false, random := ⟨79852⟩ } : LockPickerGame) :=
    LockPickerGame.ext_of _ _ (by decide) (by decide) (by decide) (by decide) (by decide) (by decide)
  rw [List.foldl_cons, hb3]
  have hb4 : ({ slots := ![2, 1, 0], currentSlot := 1, targetCode := ![2, 5, 3], correctSlots := ![true, false, false], unlocked := false, random := ⟨79852⟩ } : LockPickerGame).applyOp (Op.changeDigit Direction.up) = ({ slots := ![2, 2, 0], currentSlot := 1, targetCode := ![2, 5, 3], correctSlots := ![true, false, false], unlocked := false, random := ⟨79852⟩ } : LockPickerGame) :=
    LockPickerGame.ext_of _ _ (by decide) (by decide) (by decide) (by decide) (by decide) (by decide)
  rw [List.foldl_cons, hb4]
  have hb5 : ({ slots := ![2, 2, 0], currentSlot := 1, targetCode := ![2, 5, 3], correctSlots := ![true, false, false], unlocked := false, random := ⟨79852⟩ } : LockPickerGame).applyOp (Op.changeDigit Direction.up) = ({ slots := ![2, 3, 0], currentSlot := 1, targetCode := ![2, 5, 3], correctSlots := ![true, false, false], unlocked := false, random := ⟨79852⟩ } : LockPickerGame) :=
    LockPickerGame.ext_of _ _ (by decide) (by decide) (by decide) (by decide) (by decide) (by decide)
  rw [List.foldl_cons, hb5]
  have hb6 : ({ slots := ![2, 3, 0], currentSlot := 1, targetCode := ![2, 5, 3], correctSlots := ![true, false, false], unlocked := false, random := ⟨79852⟩ } : LockPickerGame).applyOp (Op.changeDigit Direction.up) = ({ slots := ![2, 4, 0], currentSlot := 1, targetCode := ![2, 5, 3], correctSlots := ![true, false, false], unlocked := false, random := ⟨79852⟩ } : LockPickerGame) :=
    LockPickerGame.ext_of _ _ (by decide) (by decide) (by decide) (by decide) (by decide) (by decide)
  rw [List.foldl_cons, hb6]
  have hb7 : ({ slots := ![2, 4, 0], currentSlot := 1, targetCode := ![2, 5, 3], correctSlots := ![true, false, false], unlocked := false, random := ⟨79852⟩ } : LockPickerGame).applyOp (Op.changeDigit Direction.up) = ({ slots := ![2, 5, 0], currentSlot := 1, targetCode := ![2, 5, 3], correctSlots := ![true, false, false], unlocked := false, random := ⟨79852⟩ } : LockPickerGame) :=
    LockPickerGame.ext_of _ _ (by decide) (by decide) (by decide) (by decide) (by decide) (by decide)
  rw [List.foldl_cons, hb7]
  have hb8 : ({ slots := ![2, 5, 0], currentSlot := 1, targetCode := ![2, 5, 3], correctSlots := ![true, false, false], unlocked := false, random := ⟨79852⟩ } : LockPickerGame).applyOp (Op.confirmSlot) = ({ slots := ![2, 5, 0], currentSlot := 2, targetCode := ![2, 5, 3], correctSlots := ![true, true, false], unlocked := false, random := ⟨79852⟩ } : LockPickerGame) :=
    LockPickerGame.ext_of _ _ (by decide) (by decide) (by decide) (by decide) (by decide) (by decide)
  rw [List.foldl_cons, hb8]
  have hb9 : ({ slots := ![2, 5, 0], currentSlot := 2, targetCode := ![2, 5, 3], correctSlots := ![true, true, false], unlocked := false, random := ⟨79852⟩ } : LockPickerGame).applyOp (Op.changeDigit Direction.up) = ({ slots := ![2, 5, 1], currentSlot := 2, targetCode := ![2, 5, 3], correctSlots := ![true, true, false], unlocked := false, random := ⟨79852⟩ } : LockPickerGame) :=
    LockPickerGame.ext_of _ _ (by decide) (by decide) (by decide) (by decide) (by decide) (by decide)
  rw [List.foldl_cons, hb9]
  have hb10 : ({ slots := ![2, 5, 1], currentSlot := 2, targetCode := ![2, 5, 3], correctSlots := ![true, true, false], unlocked := false, random := ⟨79852⟩ } : LockPickerGame).applyOp (Op.changeDigit Direction.up) = ({ slots := ![2, 5, 2], currentSlot := 2, targetCode := ![2, 5, 3], correctSlots := ![true, true, false], unlocked := false, random := ⟨79852⟩ } : LockPickerGame) :=
    LockPickerGame.ext_of _ _ (by decide) (by decide) (by decide) (by decide) (by decide) (by decide)
  rw [List.foldl_cons, hb10]
  have hb11 : ({ slots := ![2, 5, 2], currentSlot := 2, targetCode := ![2, 5, 3], correctSlots := ![true, true, false], unlocked := false, random := ⟨79852⟩ } : LockPickerGame).applyOp (Op.changeDigit Direction.up) = ({ slots := ![2, 5, 3], currentSlot := 2, targetCode := ![2, 5, 3], correctSlots := ![true, true, false], unlocked := false, random := ⟨79852⟩ } : LockPickerGame) :=
    LockPickerGame.ext_of _ _ (by decide) (by decide) (by decide) (by decide) (by decide) (by decide)
  rw [List.foldl_cons, hb11]
  have hb12 : ({ slots := ![2, 5, 3], currentSlot := 2, targetCode := ![2, 5, 3], correctSlots := ![true, true, false], unlocked := false, random := ⟨79852⟩ } : LockPickerGame).applyOp (Op.confirmSlot) = ({ slots := ![2, 5, 3], currentSlot := 2, targetCode := ![2, 5, 3], correctSlots := ![true, true, true], unlocked := true, random := ⟨79852⟩ } : LockPickerGame) :=
    LockPickerGame.ext_of _ _ (by decide) (by decide) (by decide) (by decide) (by decide) (by decide)
  rw [List.foldl_cons, hb12]
  rw [List.foldl_nil]
  exact ⟨rfl, by decide⟩

end LockPicker
